import Mathlib

/-
Verification of the sample-buffer, format-handle and effects-chain core of
the cysox / pysox libsox bindings.

The compiled extension module (sox.pyx) that implements SoxSampleBuffer,
Format and EffectsChain is not part of the Python sources; the definitions
below are therefore modelled from the specification of that core, and are
cross-checked against the behaviour documented by the unit tests
(tests/test_error_handling.py, tests/test_callback.py,
pysox/tests/Unit/Test100SoxBuffer.py, thirdparty doctest t010SoxBuffer.py).

Samples are 32-bit signed integers, 4 bytes each, little-endian as in the
unit tests (b 01 00 00 00 is the sample 1, b ff ff ff ff is -1).  Bytes are
modelled as natural numbers below 256, byte sequences as lists.
-/

namespace Cysox

/-- Modelled from the spec: the error taxonomy of section 7 (index-kind,
type-kind, format-kind, I/O-kind, wiring-kind, effect-kind errors). -/
inductive SoxError
  | indexError
  | typeError
  | formatError
  | ioError
  | wiringError
  | effectError
deriving DecidableEq, Repr

/-- Modelled from the spec: a 32-bit signed sample serialised to its four
little-endian bytes, each below 256. -/
def encodeSample (v : Int) : List Nat :=
  let u := (v % 4294967296).toNat
  [u % 256, u / 256 % 256, u / 65536 % 256, u / 16777216 % 256]

/-- Modelled from the spec: four little-endian bytes deserialised to a
32-bit signed sample. -/
def decodeSample (b0 b1 b2 b3 : Nat) : Int :=
  let u := b0 + 256 * b1 + 65536 * b2 + 16777216 * b3
  if u < 2147483648 then (u : Int) else (u : Int) - 4294967296

/-- Serialise a list of samples, 4 bytes per sample. -/
def encodeList : List Int → List Nat
  | [] => []
  | v :: vs => encodeSample v ++ encodeList vs

/-- Deserialise a byte list into whole 4-byte samples; a trailing partial
sample is dropped. -/
def decodeList : List Nat → List Int
  | b0 :: b1 :: b2 :: b3 :: rest => decodeSample b0 b1 b2 b3 :: decodeList rest
  | _ => []

/-- Modelled from the spec: the SoxSampleBuffer data model of section 3,
implemented by the absent extension module.  The backing storage holds
buffer_size bytes; the first data_len bytes are the valid region. -/
structure SoxSampleBuffer where
  storage : List Nat
  data_len : Nat
  buffer_size : Nat
deriving DecidableEq, Repr

/-- Modelled from the spec: Construct(from byte sequence) silently truncates
a trailing partial sample; data_len and buffer_size are the truncated
length. -/
def SoxSampleBuffer.fromBytes (b : List Nat) : SoxSampleBuffer :=
  let n := b.length / 4 * 4
  ⟨b.take n, n, n⟩

/-- Modelled from the spec: Construct(from sequence of integers), one
4-byte sample per integer. -/
def SoxSampleBuffer.fromList (xs : List Int) : SoxSampleBuffer :=
  ⟨encodeList xs, 4 * xs.length, 4 * xs.length⟩

/-- Modelled from the spec: frombytes replaces the whole content with the
given bytes, reallocating, with the same truncation rule as the byte
constructor (unit test test_005 populates an empty buffer this way). -/
def SoxSampleBuffer.frombytes (_ : SoxSampleBuffer) (b : List Nat) :
    SoxSampleBuffer :=
  SoxSampleBuffer.fromBytes b

/-- Modelled from the spec: tobytearray exports exactly the first data_len
bytes of the backing storage. -/
def SoxSampleBuffer.tobytearray (buf : SoxSampleBuffer) : List Nat :=
  buf.storage.take buf.data_len

/-- Modelled from the spec: tolist exports the valid region as samples. -/
def SoxSampleBuffer.tolist (buf : SoxSampleBuffer) : List Int :=
  decodeList buf.tobytearray

/-- The sample count of the buffer (its Python len). -/
def SoxSampleBuffer.len (buf : SoxSampleBuffer) : Nat :=
  buf.data_len / 4

/-- Modelled from the spec: get_buffer_size returns the byte capacity. -/
def SoxSampleBuffer.get_buffer_size (buf : SoxSampleBuffer) : Nat :=
  buf.buffer_size

/-- Modelled from the spec: writelist replaces the content with the given
samples inside the fixed capacity; a payload of more than buffer_size bytes
raises an index-kind error and leaves the buffer untouched.  The bytes of
the backing storage beyond the replaced region are not modified. -/
def SoxSampleBuffer.writelist (buf : SoxSampleBuffer) (xs : List Int) :
    SoxSampleBuffer × Option SoxError :=
  if buf.buffer_size < 4 * xs.length then (buf, some SoxError.indexError)
  else
    ({ buf with
        storage := encodeList xs ++ buf.storage.drop (4 * xs.length)
        data_len := 4 * xs.length }, none)

/-- Modelled from the spec: writebytes replaces the content with the given
bytes inside the fixed capacity, truncating a trailing partial sample; a
payload of more than buffer_size bytes raises an index-kind error and
leaves the buffer untouched. -/
def SoxSampleBuffer.writebytes (buf : SoxSampleBuffer) (b : List Nat) :
    SoxSampleBuffer × Option SoxError :=
  if buf.buffer_size < b.length then (buf, some SoxError.indexError)
  else
    let n := b.length / 4 * 4
    ({ buf with
        storage := b.take n ++ buf.storage.drop n
        data_len := n }, none)

/-- Modelled from the spec: set_datalen reinterprets the first n bytes of
the existing backing storage as valid data without copying; n must not
exceed buffer_size. -/
def SoxSampleBuffer.set_datalen (buf : SoxSampleBuffer) (n : Nat) :
    SoxSampleBuffer × Option SoxError :=
  if buf.buffer_size < n then (buf, some SoxError.indexError)
  else ({ buf with data_len := n }, none)

/-- Modelled from the spec: indexed read of sample i, defined for i in
[0, data_len / 4); out of range raises an index-kind error. -/
def SoxSampleBuffer.get (buf : SoxSampleBuffer) (i : Nat) :
    Except SoxError Int :=
  if i < buf.data_len / 4 then
    match buf.storage.drop (4 * i) with
    | b0 :: b1 :: b2 :: b3 :: _ => Except.ok (decodeSample b0 b1 b2 b3)
    | _ => Except.error SoxError.indexError
  else Except.error SoxError.indexError

/-- Modelled from the spec: indexed write of sample i, defined for i in
[0, data_len / 4); an out-of-range write raises an index-kind error and
never grows the buffer. -/
def SoxSampleBuffer.set (buf : SoxSampleBuffer) (i : Nat) (v : Int) :
    SoxSampleBuffer × Option SoxError :=
  if i < buf.data_len / 4 then
    ({ buf with
        storage :=
          buf.storage.take (4 * i)
            ++ (encodeSample v ++ buf.storage.drop (4 * i + 4)) }, none)
  else (buf, some SoxError.indexError)

/-- Modelled from the spec: the Format error kinds visible at construction,
as exercised by tests/test_error_handling.py.  valueErrorMode carries the
message Mode must be r or w (quoted); valueErrorSignal carries the message
Signal information is required; soxFormatError is the format-kind error of
section 7 raised when the native open fails. -/
inductive FormatInitError
  | valueErrorMode
  | valueErrorSignal
  | soxFormatError
deriving DecidableEq, Repr

/-- Modelled from the spec: an open native audio stream handle; ptr is NULL
after close (test_double_close notes the second close succeeds silently
because ptr is already NULL). -/
structure FormatHandle where
  path : String
  mode : String
  isOpen : Bool
deriving DecidableEq, Repr

/-- The libsox success return code SOX_SUCCESS, re-exported as sox.SUCCESS. -/
def SOX_SUCCESS : Int := 0

/-- Modelled from the spec: Format construction validates the mode string
first, then, for write mode, the presence of a signal descriptor, and only
then attempts the native open, whose success is the nativeOpenOk
parameter; a native open failure surfaces as the format-kind error. -/
def formatInit (path : String) (mode : String) (hasSignal : Bool)
    (nativeOpenOk : Bool) : Except FormatInitError FormatHandle :=
  if mode ≠ "r" ∧ mode ≠ "w" then Except.error FormatInitError.valueErrorMode
  else if mode = "w" ∧ ¬ hasSignal then
    Except.error FormatInitError.valueErrorSignal
  else if ¬ nativeOpenOk then Except.error FormatInitError.soxFormatError
  else Except.ok ⟨path, mode, true⟩

/-- Modelled from the spec: close flushes and releases the native stream
and is idempotent; closing an already-closed handle is success, not an
error, and returns sox.SUCCESS again. -/
def FormatHandle.close (f : FormatHandle) : FormatHandle × Int :=
  ({ f with isOpen := false }, SOX_SUCCESS)

/-- Modelled from the spec: the capability kind of a named effect handler;
the input handler is the source stage, the output handler the sink stage. -/
inductive EffectKind
  | source
  | sink
  | transform
deriving DecidableEq, Repr

/-- Modelled from the spec: the signal descriptor of the glossary, the
shape of an audio stream. -/
structure SignalInfo where
  rate : Nat
  channels : Nat
  precision : Nat
  length : Nat
deriving DecidableEq, Repr

/-- Modelled from the spec: a stage handler descriptor from the native
registry, looked up by name. -/
structure EffectHandler where
  name : String
  kind : EffectKind
deriving DecidableEq, Repr

/-- Modelled from the spec: an effect instance bound to one handler and to
the input and output signal descriptors it was wired with in the chain. -/
structure Effect where
  handler : EffectHandler
  in_signal : SignalInfo
  out_signal : SignalInfo
deriving DecidableEq, Repr

/-- Modelled from the spec: the phase of the chain state machine of
section 4.4. -/
inductive ChainPhase
  | Building
  | Running
  | Done
  | Failed
deriving DecidableEq, Repr

/-- Modelled from the spec: an effects chain, an ordered list of effect
instances plus the phase of its state machine. -/
structure EffectsChain where
  effects : List Effect
  phase : ChainPhase
deriving DecidableEq, Repr

/-- A freshly constructed chain: no effects, Building. -/
def EffectsChain.empty : EffectsChain :=
  ⟨[], ChainPhase.Building⟩

/-- Modelled from the spec: add_effect appends a stage to the ordered list
after validating the adjacency invariant of section 3 (the input signal
descriptor must equal the previous stage's output signal descriptor); a
mismatch, or a call after the chain has started running, fails with the
wiring-kind error and leaves the effect list unchanged in Building state.
No source-and-sink completeness check happens here: the skipped unit test
test_effects_chain_with_only_input documents that a chain holding only the
input effect is accepted stage by stage. -/
def EffectsChain.add_effect (c : EffectsChain) (h : EffectHandler)
    (in_sig out_sig : SignalInfo) : EffectsChain × Option SoxError :=
  if c.phase ≠ ChainPhase.Building then (c, some SoxError.wiringError)
  else
    match c.effects.getLast? with
    | some prev =>
      if prev.out_signal = in_sig then
        ({ c with effects := c.effects ++ [⟨h, in_sig, out_sig⟩] }, none)
      else (c, some SoxError.wiringError)
    | none => ({ c with effects := [⟨h, in_sig, out_sig⟩] }, none)

/-- Whether the chain is wired from a source stage to a sink stage; a chain
holding a lone source (or no effects at all) is unmatched. -/
def EffectsChain.sourceSinkMatched (c : EffectsChain) : Bool :=
  match c.effects.head?, c.effects.getLast? with
  | some f, some l =>
    decide (f.handler.kind = EffectKind.source
      ∧ l.handler.kind = EffectKind.sink ∧ 2 ≤ c.effects.length)
  | _, _ => false

/-- The value a progress callback returns: the Python None, a truthy value,
or a falsy value that is not None. -/
inductive CbResult
  | retNone
  | retTruthy
  | retFalsy
deriving DecidableEq, Repr

/-- The outcome of driving the flow loop: a success code, a catchable
error, or the native-layer undefined behaviour (observed abnormal process
termination, never a catchable error). -/
inductive FlowOutcome
  | success
  | failure (e : SoxError)
  | nativeUndefined
deriving DecidableEq, Repr

/-- Modelled from the spec: the pull-process-push loop of run over the
given number of source blocks.  After each block the callback is invoked
with all_done false and the user data; a falsy non-None return aborts with
the effect-kind error; once the source is exhausted the callback is
invoked once more with all_done true.  Returns the outcome and the trace
of callback invocations in order. -/
def flowLoop {U : Type} (cb : Bool → U → CbResult) (ud : U) :
    Nat → FlowOutcome × List (Bool × U)
  | 0 => (FlowOutcome.success, [(true, ud)])
  | n + 1 =>
    if cb false ud = CbResult.retFalsy then
      (FlowOutcome.failure SoxError.effectError, [(false, ud)])
    else
      let r := flowLoop cb ud n
      (r.1, (false, ud) :: r.2)

/-- Modelled from the spec: flow_effects drives the loop.  A chain whose
source and sink wiring is unmatched is not rejected here: it is handed to
the native layer, whose behaviour is undefined (the skipped unit test
test_effects_chain_with_only_input documents the observed abnormal process
termination).  A matched chain runs the callback loop; on success the
chain ends Done, on abort it ends Failed with the effect-kind error. -/
def EffectsChain.flow_effects {U : Type} (c : EffectsChain) (nblocks : Nat)
    (cb : Bool → U → CbResult) (ud : U) :
    EffectsChain × FlowOutcome × List (Bool × U) :=
  if c.phase ≠ ChainPhase.Building then
    (c, FlowOutcome.failure SoxError.effectError, [])
  else if ¬ c.sourceSinkMatched then (c, FlowOutcome.nativeUndefined, [])
  else
    let r := flowLoop cb ud nblocks
    match r.1 with
    | FlowOutcome.success => ({ c with phase := ChainPhase.Done }, r.1, r.2)
    | _ => ({ c with phase := ChainPhase.Failed }, r.1, r.2)

/-- The input effect handler of the native registry, the source stage. -/
def inputHandler : EffectHandler :=
  ⟨"input", EffectKind.source⟩

/-- The output effect handler of the native registry, the sink stage. -/
def outputHandler : EffectHandler :=
  ⟨"output", EffectKind.sink⟩

/-- A sample two-channel 44100 Hz signal descriptor as in the tests. -/
def sig44100 : SignalInfo :=
  ⟨44100, 2, 16, 0⟩

/-- A callback returning True on every invocation. -/
def cbTrue : Bool → Nat → CbResult :=
  fun _ _ => CbResult.retTruthy

/-- A callback returning False on every non-final invocation and True on
the final one, as in unit test test_callback_abort. -/
def cbAbort : Bool → Nat → CbResult :=
  fun ad _ => if ad then CbResult.retTruthy else CbResult.retFalsy

/-- A second sample signal descriptor, differing from sig44100 in rate. -/
def sig48000 : SignalInfo :=
  ⟨48000, 2, 16, 0⟩

/-- A properly wired input-to-output chain as built in the callback tests. -/
def chainInOut : EffectsChain :=
  ⟨[⟨inputHandler, sig44100, sig44100⟩, ⟨outputHandler, sig44100, sig44100⟩],
    ChainPhase.Building⟩

/-- A Building chain holding only the input stage, wired with sig44100. -/
def chainInputOnly : EffectsChain :=
  ⟨[⟨inputHandler, sig44100, sig44100⟩], ChainPhase.Building⟩

theorem encodeSample_length (v : Int) : (encodeSample v).length = 4 := rfl

theorem encodeList_length (xs : List Int) :
    (encodeList xs).length = 4 * xs.length := by
  induction xs with
  | nil => rfl
  | cons v vs ih =>
    simp only [encodeList, List.length_append, encodeSample_length, ih,
      List.length_cons]
    omega

end Cysox

open Cysox

/-- C4: for every byte sequence b whose length is a multiple of 4,
constructing a sample buffer from b and exporting with tobytearray returns
exactly b. -/
theorem c4_frombytes_roundtrip (b : List Nat) (h : b.length % 4 = 0) :
    (SoxSampleBuffer.fromBytes b).tobytearray = b := by
  have hn : b.length / 4 * 4 = b.length := Nat.div_mul_cancel (Nat.dvd_of_mod_eq_zero h)
  simp [SoxSampleBuffer.fromBytes, SoxSampleBuffer.tobytearray, hn]

/-- C4 witness: the round trip at the concrete byte sequence of unit test
test_003_from_bytes. -/
theorem c4_witness :
    (SoxSampleBuffer.fromBytes [1, 0, 0, 0, 255, 255, 255, 255]).tobytearray
      = [1, 0, 0, 0, 255, 255, 255, 255] :=
  c4_frombytes_roundtrip [1, 0, 0, 0, 255, 255, 255, 255] (by decide)

/-- C5: for every byte sequence b whose length is not a multiple of 4,
constructing a sample buffer from b, or populating one via frombytes,
silently truncates the trailing partial sample: the buffer holds
floor(length b / 4) samples, data_len is 4 times that, and the exported
bytes equal the truncated prefix of b. -/
theorem c5_frombytes_truncation (b : List Nat) (buf : SoxSampleBuffer)
    (h : b.length % 4 ≠ 0) :
    (SoxSampleBuffer.fromBytes b).data_len = 4 * (b.length / 4)
    ∧ (SoxSampleBuffer.fromBytes b).len = b.length / 4
    ∧ (SoxSampleBuffer.fromBytes b).tobytearray = b.take (4 * (b.length / 4))
    ∧ buf.frombytes b = SoxSampleBuffer.fromBytes b := by
  refine ⟨by simp [SoxSampleBuffer.fromBytes, Nat.mul_comm], ?_, ?_, rfl⟩
  · simp [SoxSampleBuffer.fromBytes, SoxSampleBuffer.len]
  · simp [SoxSampleBuffer.fromBytes, SoxSampleBuffer.tobytearray, Nat.mul_comm]

/-- C5 witness: the 9-byte sequence of the t010SoxBuffer doctest yields a
2-sample buffer exporting the truncated 8-byte prefix. -/
theorem c5_witness :
    (SoxSampleBuffer.fromBytes [49, 50, 51, 52, 53, 55, 56, 57, 48]).data_len
        = 4 * (9 / 4)
    ∧ (SoxSampleBuffer.fromBytes [49, 50, 51, 52, 53, 55, 56, 57, 48]).len = 9 / 4
    ∧ (SoxSampleBuffer.fromBytes [49, 50, 51, 52, 53, 55, 56, 57, 48]).tobytearray
        = List.take (4 * (9 / 4)) [49, 50, 51, 52, 53, 55, 56, 57, 48]
    ∧ (SoxSampleBuffer.fromBytes []).frombytes [49, 50, 51, 52, 53, 55, 56, 57, 48]
        = SoxSampleBuffer.fromBytes [49, 50, 51, 52, 53, 55, 56, 57, 48] :=
  c5_frombytes_truncation [49, 50, 51, 52, 53, 55, 56, 57, 48]
    (SoxSampleBuffer.fromBytes []) (by decide)

/-- Deserialising the four little-endian digit bytes of u recovers the
signed sample value v that u represents modulo 2 to the 32. -/
theorem decode_encode_aux (u : Nat) (hu : u < 4294967296) (v : Int)
    (huv : (u : Int) = v % 4294967296)
    (h0 : -2147483648 ≤ v) (h1 : v < 2147483648) :
    decodeSample (u % 256) (u / 256 % 256) (u / 65536 % 256)
      (u / 16777216 % 256) = v := by
  simp only [decodeSample]
  have hd : u % 256 + 256 * (u / 256 % 256) + 65536 * (u / 65536 % 256)
      + 16777216 * (u / 16777216 % 256) = u := by omega
  rw [hd]
  split <;> omega

/-- C6: writelist or writebytes with a payload whose byte length exceeds
buffer_size raises an index-kind error instead of truncating or
reallocating, and the buffer, in particular its capacity get_buffer_size,
is unchanged afterward. -/
theorem c6_oversized_write_rejected (buf : SoxSampleBuffer)
    (xs : List Int) (b : List Nat)
    (hx : buf.buffer_size < 4 * xs.length)
    (hb : buf.buffer_size < b.length) :
    buf.writelist xs = (buf, some SoxError.indexError)
    ∧ buf.writebytes b = (buf, some SoxError.indexError)
    ∧ (buf.writelist xs).1.get_buffer_size = buf.get_buffer_size
    ∧ (buf.writebytes b).1.get_buffer_size = buf.get_buffer_size := by
  simp [SoxSampleBuffer.writelist, SoxSampleBuffer.writebytes, hx, hb]

/-- C6 witness: the 9-sample buffer of unit test test_011_change_writelist
rejects a 12-sample writelist and a 48-byte writebytes. -/
theorem c6_witness :
    (SoxSampleBuffer.fromList [1, 2, 3, 4, 5, 6, 7, 8, 9]).writelist
        [1, 2, 3, 4, 5, 6, 7, 8, 9, 10, 11, 12]
      = (SoxSampleBuffer.fromList [1, 2, 3, 4, 5, 6, 7, 8, 9],
          some SoxError.indexError)
    ∧ (SoxSampleBuffer.fromList [1, 2, 3, 4, 5, 6, 7, 8, 9]).writebytes
        (List.replicate 48 48)
      = (SoxSampleBuffer.fromList [1, 2, 3, 4, 5, 6, 7, 8, 9],
          some SoxError.indexError)
    ∧ ((SoxSampleBuffer.fromList [1, 2, 3, 4, 5, 6, 7, 8, 9]).writelist
        [1, 2, 3, 4, 5, 6, 7, 8, 9, 10, 11, 12]).1.get_buffer_size
      = (SoxSampleBuffer.fromList [1, 2, 3, 4, 5, 6, 7, 8, 9]).get_buffer_size
    ∧ ((SoxSampleBuffer.fromList [1, 2, 3, 4, 5, 6, 7, 8, 9]).writebytes
        (List.replicate 48 48)).1.get_buffer_size
      = (SoxSampleBuffer.fromList [1, 2, 3, 4, 5, 6, 7, 8, 9]).get_buffer_size :=
  c6_oversized_write_rejected (SoxSampleBuffer.fromList [1, 2, 3, 4, 5, 6, 7, 8, 9])
    [1, 2, 3, 4, 5, 6, 7, 8, 9, 10, 11, 12] (List.replicate 48 48)
    (by decide) (by decide)

/-- C7: a writelist with a shorter payload shrinks data_len to the payload
size while leaving buffer_size and the backing bytes beyond the replaced
prefix unmodified, and a subsequent set_datalen n with n at most
buffer_size succeeds and re-exposes those untouched tail bytes without any
copy of the storage. -/
theorem c7_writelist_shrink_and_set_datalen (buf : SoxSampleBuffer)
    (xs : List Int) (n : Nat)
    (hxs : 4 * xs.length ≤ buf.buffer_size) (hn : n ≤ buf.buffer_size) :
    (buf.writelist xs).2 = none
    ∧ (buf.writelist xs).1.data_len = 4 * xs.length
    ∧ (buf.writelist xs).1.buffer_size = buf.buffer_size
    ∧ (buf.writelist xs).1.storage.drop (4 * xs.length)
        = buf.storage.drop (4 * xs.length)
    ∧ ((buf.writelist xs).1.set_datalen n).2 = none
    ∧ ((buf.writelist xs).1.set_datalen n).1.data_len = n
    ∧ ((buf.writelist xs).1.set_datalen n).1.storage
        = (buf.writelist xs).1.storage := by
  have hnot : ¬ buf.buffer_size < 4 * xs.length := Nat.not_lt.mpr hxs
  refine ⟨?_, ?_, ?_, ?_, ?_, ?_, ?_⟩ <;>
    simp [SoxSampleBuffer.writelist, SoxSampleBuffer.set_datalen, hnot,
      Nat.not_lt.mpr hn]
  rw [show 4 * xs.length = (encodeList xs).length from (encodeList_length xs).symm,
    List.drop_left]

/-- C7 witness: the scenario of unit test test_011_change_writelist; a
9-sample buffer after writelist of two samples and set_datalen 36 lists
the two new samples followed by the untouched tail. -/
theorem c7_witness :
    (((SoxSampleBuffer.fromList [1, 2, 3, 4, 5, 6, 7, 8, 9]).writelist
        [10, 11]).2 = none
    ∧ ((SoxSampleBuffer.fromList [1, 2, 3, 4, 5, 6, 7, 8, 9]).writelist
        [10, 11]).1.data_len = 4 * 2
    ∧ ((SoxSampleBuffer.fromList [1, 2, 3, 4, 5, 6, 7, 8, 9]).writelist
        [10, 11]).1.buffer_size
        = (SoxSampleBuffer.fromList [1, 2, 3, 4, 5, 6, 7, 8, 9]).buffer_size
    ∧ ((SoxSampleBuffer.fromList [1, 2, 3, 4, 5, 6, 7, 8, 9]).writelist
        [10, 11]).1.storage.drop (4 * 2)
        = (SoxSampleBuffer.fromList [1, 2, 3, 4, 5, 6, 7, 8, 9]).storage.drop (4 * 2)
    ∧ (((SoxSampleBuffer.fromList [1, 2, 3, 4, 5, 6, 7, 8, 9]).writelist
        [10, 11]).1.set_datalen 36).2 = none
    ∧ (((SoxSampleBuffer.fromList [1, 2, 3, 4, 5, 6, 7, 8, 9]).writelist
        [10, 11]).1.set_datalen 36).1.data_len = 36
    ∧ (((SoxSampleBuffer.fromList [1, 2, 3, 4, 5, 6, 7, 8, 9]).writelist
        [10, 11]).1.set_datalen 36).1.storage
        = ((SoxSampleBuffer.fromList [1, 2, 3, 4, 5, 6, 7, 8, 9]).writelist
            [10, 11]).1.storage)
    ∧ (((SoxSampleBuffer.fromList [1, 2, 3, 4, 5, 6, 7, 8, 9]).writelist
        [10, 11]).1.set_datalen 36).1.tolist = [10, 11, 3, 4, 5, 6, 7, 8, 9] :=
  ⟨c7_writelist_shrink_and_set_datalen
      (SoxSampleBuffer.fromList [1, 2, 3, 4, 5, 6, 7, 8, 9]) [10, 11] 36
      (by decide) (by decide), by decide⟩

/-- C8: for a buffer of logical length n samples, indexed get and indexed
set at an index at or beyond n both raise an index-kind error and the
out-of-range write leaves the buffer unchanged, while get and set at an
index below n succeed, round-trip the written 32-bit value, and leave the
length unchanged. -/
theorem c8_index_bounds_roundtrip (buf : SoxSampleBuffer) (i : Nat) (v : Int)
    (hinv : buf.data_len ≤ buf.storage.length)
    (hmod : buf.data_len % 4 = 0) :
    (buf.data_len / 4 ≤ i →
        buf.get i = Except.error SoxError.indexError
        ∧ buf.set i v = (buf, some SoxError.indexError))
    ∧ (i < buf.data_len / 4 → -2147483648 ≤ v → v < 2147483648 →
        (buf.set i v).2 = none
        ∧ (buf.set i v).1.data_len = buf.data_len
        ∧ (buf.set i v).1.get i = Except.ok v) := by
  constructor
  · intro hge
    have hnot : ¬ i < buf.data_len / 4 := Nat.not_lt.mpr hge
    exact ⟨by simp [SoxSampleBuffer.get, hnot], by simp [SoxSampleBuffer.set, hnot]⟩
  · intro hlt h0 h1
    have hle : 4 * i + 4 ≤ buf.data_len := by omega
    have htake : (buf.storage.take (4 * i)).length = 4 * i := by
      rw [List.length_take]; omega
    refine ⟨by simp [SoxSampleBuffer.set, hlt], by simp [SoxSampleBuffer.set, hlt], ?_⟩
    have hdrop :
        ((buf.storage.take (4 * i)
            ++ (encodeSample v ++ buf.storage.drop (4 * i + 4)))).drop (4 * i)
          = encodeSample v ++ buf.storage.drop (4 * i + 4) := by
      exact List.drop_left' htake
    have hu0 : 0 ≤ v % 4294967296 := Int.emod_nonneg v (by norm_num)
    have hult : v % 4294967296 < 4294967296 := Int.emod_lt_of_pos v (by norm_num)
    have huv : (((v % 4294967296).toNat) : Int) = v % 4294967296 :=
      Int.toNat_of_nonneg hu0
    have hu4 : (v % 4294967296).toNat < 4294967296 := by omega
    have hdec := decode_encode_aux (v % 4294967296).toNat hu4 v huv h0 h1
    simp only [SoxSampleBuffer.set, if_pos hlt, SoxSampleBuffer.get]
    rw [hdrop]
    simp only [encodeSample, List.cons_append, List.nil_append]
    exact congrArg Except.ok hdec

/-- C8 witness: on a 3-sample buffer, get and set at index 7 raise the
index-kind error leaving the buffer unchanged, and set then get at index 1
round-trips the negative sample -5 with the length unchanged. -/
theorem c8_witness :
    ((SoxSampleBuffer.fromList [1, 2, 3]).get 7
        = Except.error SoxError.indexError
    ∧ (SoxSampleBuffer.fromList [1, 2, 3]).set 7 (-5)
        = (SoxSampleBuffer.fromList [1, 2, 3], some SoxError.indexError))
    ∧ (((SoxSampleBuffer.fromList [1, 2, 3]).set 1 (-5)).2 = none
    ∧ ((SoxSampleBuffer.fromList [1, 2, 3]).set 1 (-5)).1.data_len
        = (SoxSampleBuffer.fromList [1, 2, 3]).data_len
    ∧ ((SoxSampleBuffer.fromList [1, 2, 3]).set 1 (-5)).1.get 1
        = Except.ok (-5)) :=
  ⟨(c8_index_bounds_roundtrip (SoxSampleBuffer.fromList [1, 2, 3]) 7 (-5)
      (by decide) (by decide)).1 (by decide),
   (c8_index_bounds_roundtrip (SoxSampleBuffer.fromList [1, 2, 3]) 1 (-5)
      (by decide) (by decide)).2 (by decide) (by decide) (by decide)⟩


/-- If the callback never returns a falsy non-None value, the flow loop
completes with success and invokes the callback once per block with
all_done false, then exactly once with all_done true. -/
theorem flowLoop_no_abort {U : Type} (cb : Bool → U → CbResult) (ud : U)
    (h : cb false ud ≠ CbResult.retFalsy) (n : Nat) :
    flowLoop cb ud n
      = (FlowOutcome.success, List.replicate n (false, ud) ++ [(true, ud)]) := by
  induction n with
  | zero => rfl
  | succ n ih => simp [flowLoop, h, ih, List.replicate_succ]

/-- Filtering the all_done flags of the non-final callback invocations
leaves nothing: they all carry false. -/
theorem filter_replicate_false {U : Type} (n : Nat) (ud : U) :
    (List.replicate n ((false : Bool), ud)).filter (fun p => p.1) = [] := by
  induction n with
  | zero => rfl
  | succ n ih => simp [List.replicate_succ, List.filter_cons, ih]

/-- C2: add_effect on a Building chain whose last stage was wired with an
output signal descriptor different from the new stage's input signal
descriptor fails with the wiring-kind error at append time, and the chain
is unchanged: its effect list is not mutated and it stays in Building
state. -/
theorem c2_add_effect_wiring_mismatch_rejected (c : EffectsChain)
    (prev : Effect) (h : EffectHandler) (in_sig out_sig : SignalInfo)
    (hph : c.phase = ChainPhase.Building)
    (hlast : c.effects.getLast? = some prev)
    (hne : prev.out_signal ≠ in_sig) :
    c.add_effect h in_sig out_sig = (c, some SoxError.wiringError)
    ∧ (c.add_effect h in_sig out_sig).1.effects = c.effects
    ∧ (c.add_effect h in_sig out_sig).1.phase = ChainPhase.Building := by
  have hrej : c.add_effect h in_sig out_sig = (c, some SoxError.wiringError) := by
    simp [EffectsChain.add_effect, hph, hlast, hne]
  exact ⟨hrej, by rw [hrej], by rw [hrej]; exact hph⟩

/-- C2 witness: appending the output stage with a 48000 Hz input signal
descriptor after an input stage wired to produce 44100 Hz is rejected and
the one-stage chain is unchanged. -/
theorem c2_witness :
    chainInputOnly.add_effect outputHandler sig48000 sig48000
      = (chainInputOnly, some SoxError.wiringError)
    ∧ (chainInputOnly.add_effect outputHandler sig48000 sig48000).1.effects
      = chainInputOnly.effects
    ∧ (chainInputOnly.add_effect outputHandler sig48000 sig48000).1.phase
      = ChainPhase.Building :=
  c2_add_effect_wiring_mismatch_rejected chainInputOnly
    ⟨inputHandler, sig44100, sig44100⟩ outputHandler sig48000 sig48000
    rfl rfl (by decide)

/-- C3: running a properly wired Building chain with a progress callback:
if the callback returns a falsy non-None value on a non-final invocation,
the run aborts with the effect-kind error and the chain ends Failed; if
the callback never returns falsy non-None, the run succeeds, the chain
ends Done, and the callback trace is one all_done-false invocation per
block followed by exactly one final all_done-true invocation, last,
carrying the caller's user data. -/
theorem c3_flow_callback_abort_and_completion {U : Type} (c : EffectsChain)
    (n : Nat) (cb : Bool → U → CbResult) (ud : U)
    (hph : c.phase = ChainPhase.Building)
    (hm : c.sourceSinkMatched = true) :
    (0 < n → cb false ud = CbResult.retFalsy →
        c.flow_effects n cb ud
          = ({ c with phase := ChainPhase.Failed },
              FlowOutcome.failure SoxError.effectError, [(false, ud)]))
    ∧ (cb false ud ≠ CbResult.retFalsy →
        c.flow_effects n cb ud
          = ({ c with phase := ChainPhase.Done }, FlowOutcome.success,
              List.replicate n (false, ud) ++ [(true, ud)])
        ∧ ((List.replicate n (false, ud) ++ [(true, ud)]).filter
            (fun p => p.1)).length = 1
        ∧ (List.replicate n (false, ud) ++ [(true, ud)]).getLast?
            = some (true, ud)) := by
  constructor
  · intro hn hf
    obtain ⟨m, rfl⟩ : ∃ m, n = m + 1 := ⟨n - 1, by omega⟩
    simp [EffectsChain.flow_effects, hph, hm, flowLoop, hf]
  · intro hf
    refine ⟨?_, ?_, ?_⟩
    · simp [EffectsChain.flow_effects, hph, hm, flowLoop_no_abort cb ud hf n]
    · simp [List.filter_append, filter_replicate_false, List.filter_cons]
    · simp [List.getLast?_concat]

/-- C3 witness: on the two-stage input-to-output chain with two source
blocks, the abort callback of test_callback_abort fails the run with the
effect-kind error, and the always-True callback completes it with the
final all_done-true invocation exactly once, last. -/
theorem c3_witness :
    (chainInOut.flow_effects 2 cbAbort 0
      = ({ chainInOut with phase := ChainPhase.Failed },
          FlowOutcome.failure SoxError.effectError, [(false, 0)]))
    ∧ (chainInOut.flow_effects 2 cbTrue 0
        = ({ chainInOut with phase := ChainPhase.Done }, FlowOutcome.success,
            List.replicate 2 (false, 0) ++ [(true, 0)])
      ∧ ((List.replicate 2 ((false : Bool), (0 : Nat)) ++ [(true, 0)]).filter
          (fun p : Bool × Nat => p.1)).length = 1
      ∧ (List.replicate 2 ((false : Bool), (0 : Nat)) ++ [(true, 0)]).getLast?
          = some (true, 0)) :=
  ⟨(c3_flow_callback_abort_and_completion chainInOut 2 cbAbort 0 rfl (by decide)).1
      (by decide) rfl,
   (c3_flow_callback_abort_and_completion chainInOut 2 cbTrue 0 rfl (by decide)).2
      (by decide)⟩

/-- C1 counterexample: the chain holding only the input effect is not
rejected with a catchable error: add_effect accepts it (no error), and
flow_effects on it yields the native-layer undefined outcome, which is a
distinct constructor from every catchable failure.  This is the scenario
of the skipped unit test test_effects_chain_with_only_input. -/
theorem c1_source_only_chain_not_rejected_cx :
    (EffectsChain.empty.add_effect inputHandler sig44100 sig44100).2 = none
    ∧ ((EffectsChain.empty.add_effect inputHandler sig44100
          sig44100).1.flow_effects 4 cbTrue 0).2.1
        = FlowOutcome.nativeUndefined
    ∧ FlowOutcome.nativeUndefined ≠ FlowOutcome.failure SoxError.effectError := by
  refine ⟨rfl, by decide, by decide⟩

/-- C1 as amended: the implementation does not reject a chain whose stages
hold a source with no paired sink; add_effect accepts the lone input
stage, and flow_effects hands the chain to the native layer, whose
behaviour is undefined (observed abnormal process termination, documented
by the skipped test test_effects_chain_with_only_input); no catchable
error is raised at add_effect or at flow_effects entry. -/
theorem c1_source_only_chain_reaches_native_layer (s : SignalInfo) (n : Nat)
    {U : Type} (cb : Bool → U → CbResult) (ud : U) :
    (EffectsChain.empty.add_effect inputHandler s s).2 = none
    ∧ (EffectsChain.empty.add_effect inputHandler s s).1.flow_effects n cb ud
      = ((EffectsChain.empty.add_effect inputHandler s s).1,
          FlowOutcome.nativeUndefined, []) := by
  constructor
  · rfl
  · simp [EffectsChain.add_effect, EffectsChain.empty, EffectsChain.flow_effects,
      EffectsChain.sourceSinkMatched, inputHandler]

/-- C9: closing a format handle twice in a row returns sox.SUCCESS both
times and raises no error; the second close is a no-op on an already
closed handle. -/
theorem c9_double_close_success (f : FormatHandle) (h : f.isOpen = true) :
    f.close.2 = SOX_SUCCESS
    ∧ f.close.1.close.2 = SOX_SUCCESS
    ∧ f.close.1.close.1.isOpen = false :=
  ⟨rfl, rfl, rfl⟩

/-- C9 witness: double close of the handle opened on the test file. -/
theorem c9_witness :
    (FormatHandle.close ⟨"tests/data/s00.wav", "r", true⟩).2 = SOX_SUCCESS
    ∧ (FormatHandle.close
        (FormatHandle.close ⟨"tests/data/s00.wav", "r", true⟩).1).2 = SOX_SUCCESS
    ∧ (FormatHandle.close
        (FormatHandle.close ⟨"tests/data/s00.wav", "r", true⟩).1).1.isOpen
      = false :=
  c9_double_close_success ⟨"tests/data/s00.wav", "r", true⟩ rfl

/-- C10: constructing a format handle with a mode other than r or w fails
with the ValueError whose message reads Mode must be r or w (quoted),
independently of the native open outcome (the nativeOpenOk parameter), so
before any native open is attempted; and that error kind is distinct from
the format-kind error raised for unreadable files. -/
theorem c10_invalid_mode_value_error (path : String) (mode : String)
    (hasSignal nativeOpenOk : Bool) (hr : mode ≠ "r") (hw : mode ≠ "w") :
    formatInit path mode hasSignal nativeOpenOk
      = Except.error FormatInitError.valueErrorMode
    ∧ FormatInitError.valueErrorMode ≠ FormatInitError.soxFormatError :=
  ⟨by simp [formatInit, hr, hw], by simp⟩

/-- C10 witness: mode x on the test file, as in test_format_invalid_mode,
whatever the native layer would have said. -/
theorem c10_witness :
    formatInit "tests/data/s00.wav" "x" true false
      = Except.error FormatInitError.valueErrorMode
    ∧ FormatInitError.valueErrorMode ≠ FormatInitError.soxFormatError :=
  c10_invalid_mode_value_error "tests/data/s00.wav" "x" true false
    (by decide) (by decide)
